/-
A Lean 4 shallow embedding of the decoder-step orchestrator of
src/fastertransformer/open_decoder.h (class OpenDecoder), together with
proofs about the spec's claims: workspace sizing, tuning-file loading and
validation, workspace region layout, fused-QKV pointer setup, and the
forward-step kernel-call sequence for the self-only and self+cross variants.

The numeric kernels (decoder_norm1, decoder_norm2, masked_multi_head_attention,
cross_multi_head_attention, ffn, add_bias_input) are declared but not defined
in the header; forward is embedded as the exact sequence of kernel calls it
issues, and a denotational layer interprets those calls against the
collaborator contracts stated in the spec.  Measured GEMM timings read from
the tuning file are modelled as rationals; only their order matters to the
code under study.
-/
import Mathlib

namespace fastertransformer

/-- The two supported numeric precisions (OperationType in common.h): FP32 is
full precision, FP16 the reduced tensor-core precision. -/
inductive OperationType where
  | FP32
  | FP16
deriving DecidableEq

/-- Value of the cuBLAS constant CUBLAS_GEMM_DEFAULT, the first valid
full-precision algorithm id. -/
def CUBLAS_GEMM_DEFAULT : Int := -1

/-- Value of the cuBLAS constant CUBLAS_GEMM_ALGO23, the last valid
full-precision algorithm id. -/
def CUBLAS_GEMM_ALGO23 : Int := 23

/-- Value of the cuBLAS constant CUBLAS_GEMM_DEFAULT_TENSOR_OP, the first
valid reduced-precision (tensor-op) algorithm id. -/
def CUBLAS_GEMM_DEFAULT_TENSOR_OP : Int := 99

/-- Value of the cuBLAS constant CUBLAS_GEMM_ALGO15_TENSOR_OP, the last valid
reduced-precision (tensor-op) algorithm id. -/
def CUBLAS_GEMM_ALGO15_TENSOR_OP : Int := 115

/-- The per-precision default GEMM algorithm chosen on the fallback path of
the OpenDecoder constructor (open_decoder.h lines 136-144). -/
def defaultAlgo : OperationType → Int
  | .FP32 => CUBLAS_GEMM_DEFAULT
  | .FP16 => CUBLAS_GEMM_DEFAULT_TENSOR_OP

/-- The validity test the constructor applies to a parsed algorithm id
(open_decoder.h lines 152-175): for FP32 an id is rejected when it is above
CUBLAS_GEMM_ALGO23 or below CUBLAS_GEMM_DEFAULT, for FP16 when it is above
CUBLAS_GEMM_ALGO15_TENSOR_OP or below CUBLAS_GEMM_DEFAULT_TENSOR_OP. -/
def algoInvalid (op : OperationType) (a : Int) : Bool :=
  match op with
  | .FP32 => decide (a > CUBLAS_GEMM_ALGO23) || decide (a < CUBLAS_GEMM_DEFAULT)
  | .FP16 => decide (a > CUBLAS_GEMM_ALGO15_TENSOR_OP) || decide (a < CUBLAS_GEMM_DEFAULT_TENSOR_OP)

/-- An id lies in the valid range of the active precision. -/
def algoOk (op : OperationType) (a : Int) : Prop :=
  match op with
  | .FP32 => CUBLAS_GEMM_DEFAULT ≤ a ∧ a ≤ CUBLAS_GEMM_ALGO23
  | .FP16 => CUBLAS_GEMM_DEFAULT_TENSOR_OP ≤ a ∧ a ≤ CUBLAS_GEMM_ALGO15_TENSOR_OP

instance (op : OperationType) (a : Int) : Decidable (algoOk op a) := by
  unfold algoOk
  cases op <;> exact inferInstance

/-- One fully tokenized record of decoding_gemm_config.in in its fixed token
order.  The fscanf format string of the constructor (line 127) is
a skipped int, a skipped float, then alternately ints and floats; the fields
here are named purely by position in the file.  The constructor binds
algoTok0..algoTok4 to cublasAlgo_[0..4], floatTok1 (the float immediately
following algoTok0) to the local split_time, and floatTok2 (the final float)
to the local fused_time. -/
structure GemmConfigRecord where
  skipInt : Int
  skipFloat0 : ℚ
  algoTok0 : Int
  floatTok1 : ℚ
  algoTok1 : Int
  skipFloat1 : ℚ
  algoTok2 : Int
  skipFloat2 : ℚ
  algoTok3 : Int
  skipFloat3 : ℚ
  algoTok4 : Int
  floatTok2 : ℚ
deriving DecidableEq

/-- What the constructor observes of decoding_gemm_config.in: the file is
absent (fopen returns NULL), or it opens and fscanf returns the number of
assigned fields `err` together with the token record (meaningful only in the
positions fscanf actually filled; when err is not 7 every field the
constructor would read is overwritten on the fallback path, so carrying a
full record is harmless). -/
inductive FileState where
  | absent
  | opened (err : Int) (rec : GemmConfigRecord)
deriving DecidableEq

/-- The tuning state the constructor leaves behind: the five stored cuBLAS
algorithm selectors cublasAlgo_[0..4] and the QKV-fusion flag is_fuse_QKV. -/
structure TuningProfile where
  cublasAlgo0 : Int
  cublasAlgo1 : Int
  cublasAlgo2 : Int
  cublasAlgo3 : Int
  cublasAlgo4 : Int
  is_fuse_QKV : Bool
deriving DecidableEq

/-- Outcome of the OpenDecoder constructor's tuning-file processing: normal
completion with a TuningProfile, or process termination through exit(-1)
(lines 160 and 172). -/
inductive ConstructResult where
  | ok (p : TuningProfile)
  | fatalExit (code : Int)
deriving DecidableEq

/-- The fusion flag of a normally-completed construction. -/
def ConstructResult.fuseFlag : ConstructResult → Option Bool
  | .ok p => some p.is_fuse_QKV
  | .fatalExit _ => none

/-- The tuning-file processing of the OpenDecoder constructor
(open_decoder.h lines 116-176).  An absent file leaves err at 0; an opened
file yields fscanf's return value err and the parsed tokens, and sets
is_fuse_QKV to fused_time < split_time * 3 (line 129, with fused_time the
final float token and split_time the float token after the first algorithm
id).  When err is not 7 all five selectors fall back to the precision
default and the fusion flag to false (lines 133-148); when err is 7 each
selector is range-checked and any out-of-range id terminates the process
with exit(-1) (lines 149-176). -/
def constructTuning (op : OperationType) (file : FileState) : ConstructResult :=
  match file with
  | .absent => .ok ⟨defaultAlgo op, defaultAlgo op, defaultAlgo op, defaultAlgo op, defaultAlgo op, false⟩
  | .opened err rec =>
    if err = 7 then
      if algoInvalid op rec.algoTok0 || algoInvalid op rec.algoTok1 || algoInvalid op rec.algoTok2
          || algoInvalid op rec.algoTok3 || algoInvalid op rec.algoTok4 then
        .fatalExit (-1)
      else
        .ok ⟨rec.algoTok0, rec.algoTok1, rec.algoTok2, rec.algoTok3, rec.algoTok4,
             decide (rec.floatTok2 < rec.floatTok1 * 3)⟩
    else
      .ok ⟨defaultAlgo op, defaultAlgo op, defaultAlgo op, defaultAlgo op, defaultAlgo op, false⟩

/-- getWorkspaceSize (open_decoder.h lines 179-183): buf_size is
batch_size * hidden_units, and the returned count is 13 * buf_size plus
sizeof(DataType_ *) * 9, written here with the pointer byte size as the
parameter ptrSize.  Note the 13 * buf_size summand is a count of elements of
the active data type, not of bytes. -/
def getWorkspaceSize (batch_size hidden_units ptrSize : Nat) : Nat :=
  let buf_size := batch_size * hidden_units
  13 * buf_size + ptrSize * 9

/-- Byte size of one element of each precision's data type: sizeof(float)
is 4 for FP32 and sizeof(half) is 2 for FP16. -/
def elementSize : OperationType → Nat
  | .FP32 => 4
  | .FP16 => 2

/-- The named device buffers OpenDecoder carves out of the caller's
workspace in initialize (lines 192-203), plus decoder_output, the caller's
output buffer of forward. -/
inductive Region where
  | normFromTensor
  | queryB
  | keyB
  | valueB
  | contextB
  | maskedOutput
  | normMaskedOutput
  | crossOutput
  | normCrossOutput
  | ffnInner
  | decoderOutput
deriving DecidableEq

/-- The per-layer weight and bias tensors of DecoderInitParam the forward
step hands to its kernels. -/
inductive WeightId where
  | selfLayernormGamma
  | selfLayernormBeta
  | crossLayernormGamma
  | crossLayernormBeta
  | ffnLayernormGamma
  | ffnLayernormBeta
  | selfAttentionOutputBias
  | crossAttentionOutputBias
  | selfQueryKernel
  | selfKeyKernel
  | selfValueKernel
deriving DecidableEq

/-- Every device tensor a forward step can touch: the caller-supplied
arguments of forward (input hidden state, encoder memory, the two
self-attention caches, the two memory caches, the per-sequence memory
lengths), the workspace regions, and the weights. -/
inductive Tensor where
  | fromTensor
  | memoryTensor
  | keyCache
  | valueCache
  | keyMemCache
  | valueMemCache
  | memorySequenceLength
  | reg (r : Region)
  | weight (w : WeightId)
deriving DecidableEq

/-- ActivationType of the feed-forward block (common.h). -/
inductive ActivationType where
  | RELU
  | GELU
deriving DecidableEq

/-- One call forward issues to an external kernel collaborator, with the
tensors it passes and the scalar arguments.  Constructors mirror the member
functions declared at open_decoder.h lines 405-424. -/
inductive KernelCall where
  | decoder_norm1 (from_tensor gamma beta : Tensor) (out : Region) (m n : Nat)
  | masked_multi_head_attention (from_tensor key_cache value_cache : Tensor) (out : Region) (step : Nat)
  | decoder_norm2 (from_tensor gamma beta bias : Tensor) (output norm_output : Region) (m n : Nat)
  | cross_multi_head_attention (from_tensor memory_tensor key_mem_cache value_mem_cache : Tensor)
      (out : Region) (memory_sequence_length : Tensor) (max_seq_len step : Nat)
  | ffn (input : Tensor) (inner output : Region) (m inner_size n : Nat) (act : ActivationType)
  | add_bias_input (output : Region) (input : Tensor) (m n : Nat)
deriving DecidableEq

/-- All tensor operands of a call: everything it is handed, whether it reads
or writes it (written workspace regions included). -/
def KernelCall.operands : KernelCall → List Tensor
  | .decoder_norm1 x g b out _ _ => [x, g, b, .reg out]
  | .masked_multi_head_attention x kc vc out _ => [x, kc, vc, .reg out]
  | .decoder_norm2 x g b bias out nout _ _ => [x, g, b, bias, .reg out, .reg nout]
  | .cross_multi_head_attention x mem kmc vmc out msl _ _ => [x, mem, kmc, vmc, .reg out, msl]
  | .ffn inp inner out _ _ _ _ => [inp, .reg inner, .reg out]
  | .add_bias_input out inp _ _ => [.reg out, inp]

/-- The exact sequence of kernel calls OpenDecoder::forward issues
(open_decoder.h lines 258-404), with m = batch_size, n = hidden_units.
The debug-only print_tensor calls (no-ops: they return immediately) and the
NDEBUG-only device synchronizations are not kernel calls and are omitted. -/
def forwardTrace (m n max_seq_len step : Nat) (is_cross_attention : Bool) : List KernelCall :=
  [ .decoder_norm1 .fromTensor (.weight .selfLayernormGamma) (.weight .selfLayernormBeta)
      .normFromTensor m n,
    .masked_multi_head_attention (.reg .normFromTensor) .keyCache .valueCache .maskedOutput step ]
  ++ (if is_cross_attention then
    [ .decoder_norm2 .fromTensor (.weight .crossLayernormGamma) (.weight .crossLayernormBeta)
        (.weight .selfAttentionOutputBias) .maskedOutput .normMaskedOutput m n,
      .cross_multi_head_attention (.reg .normMaskedOutput) .memoryTensor .keyMemCache .valueMemCache
        .crossOutput .memorySequenceLength max_seq_len step,
      .decoder_norm2 (.reg .maskedOutput) (.weight .ffnLayernormGamma) (.weight .ffnLayernormBeta)
        (.weight .crossAttentionOutputBias) .crossOutput .normCrossOutput m n,
      .ffn (.reg .normCrossOutput) .ffnInner .decoderOutput m (4 * n) n .RELU,
      .add_bias_input .decoderOutput (.reg .crossOutput) m n ]
  else
    [ .decoder_norm2 .fromTensor (.weight .ffnLayernormGamma) (.weight .ffnLayernormBeta)
        (.weight .selfAttentionOutputBias) .maskedOutput .normMaskedOutput m n,
      .ffn (.reg .normMaskedOutput) .ffnInner .decoderOutput m (4 * n) n .GELU,
      .add_bias_input .decoderOutput (.reg .maskedOutput) m n ])

/-- The ten workspace regions as initialize lays them out (lines 191-203),
as triples of name, start offset and size, in elements of the data type,
over buf_size = batch_size * hidden_units.  The order is that of the
assignments in initialize. -/
def decoderRegions (buf_size : Nat) : List (Region × Nat × Nat) :=
  [ (.normFromTensor, 0, buf_size),
    (.queryB, buf_size, buf_size),
    (.keyB, 2 * buf_size, buf_size),
    (.valueB, 3 * buf_size, buf_size),
    (.contextB, 4 * buf_size, buf_size),
    (.maskedOutput, 5 * buf_size, buf_size),
    (.normMaskedOutput, 6 * buf_size, buf_size),
    (.crossOutput, 7 * buf_size, buf_size),
    (.normCrossOutput, 8 * buf_size, buf_size),
    (.ffnInner, 9 * buf_size, 4 * buf_size) ]

/-- Byte offset of qkv_kernel_, the first pointer array: initialize places it
at ffn_inner_buf_ + 4 * buf_size, i.e. element offset 9 * buf_size +
4 * buf_size, converted to bytes by the element size (line 205). -/
def qkv_kernel_byte (buf_size elemSize : Nat) : Nat :=
  (9 * buf_size + 4 * buf_size) * elemSize

/-- Byte offset of qkv_input_: qkv_kernel_ + 3, three pointer slots after
qkv_kernel_ (line 206). -/
def qkv_input_byte (buf_size elemSize ptrSize : Nat) : Nat :=
  qkv_kernel_byte buf_size elemSize + 3 * ptrSize

/-- Byte offset of qkv_buf_: qkv_input_ + 3, three pointer slots after
qkv_input_ (line 207). -/
def qkv_buf_byte (buf_size elemSize ptrSize : Nat) : Nat :=
  qkv_input_byte buf_size elemSize ptrSize + 3 * ptrSize

/-- Kinds of cudaMemcpy directions used by the class. -/
inductive MemcpyKind where
  | hostToDevice
  | deviceToHost
deriving DecidableEq

/-- Side effects initialize can have on device memory: an asynchronous
memcpy of a host pointer array onto the device (recording the destination
element offset, the tensors the copied pointers point to, the byte count,
the direction, and whether it is enqueued on the bound stream), or a device
memory allocation.  The vocabulary includes allocation so that its absence
from initialize is a statement, not a tautology of the type. -/
inductive InitEffect where
  | memcpyAsync (dstElemOffset : Nat) (contents : List Tensor) (bytes : Nat)
      (kind : MemcpyKind) (onBoundStream : Bool)
  | alloc (bytes : Nat)
deriving DecidableEq

/-- Whether an initialize effect is a device memory allocation. -/
def InitEffect.isAllocation : InitEffect → Bool
  | .alloc _ => true
  | _ => false

/-- The device side effects of initialize (open_decoder.h lines 185-218):
when is_fuse_QKV holds, one cudaMemcpyAsync of the nine-entry host pointer
array hA (the three self-attention projection kernels, three copies of
norm_from_tensor_buf_, then query_buf_, key_buf_, value_buf_) onto
qkv_kernel_, of sizeof(DataType_ *) * 9 bytes, host-to-device, on
param_.stream; otherwise nothing.  The rest of initialize is pure offset
arithmetic (decoderRegions and the qkv offsets above); there is no
allocation. -/
def initializeEffects (buf_size ptrSize : Nat) (is_fuse_QKV : Bool) : List InitEffect :=
  if is_fuse_QKV then
    [ .memcpyAsync (13 * buf_size)
        [ .weight .selfQueryKernel, .weight .selfKeyKernel, .weight .selfValueKernel,
          .reg .normFromTensor, .reg .normFromTensor, .reg .normFromTensor,
          .reg .queryB, .reg .keyB, .reg .valueB ]
        (ptrSize * 9) .hostToDevice true ]
  else []

/-- Models of the external kernel collaborators, as abstract functions over
an abstract tensor-value type V.  Modelled from the spec: the kernel bodies
(LayerNorm, MaskedAttention, CrossAttention, FeedForward) live in .cu files
that are not part of this repository snapshot; only their input/output
contracts are used.  maskedAttnF and crossAttnF return the attention output
together with the updated key/value caches; ffnF returns the inner scratch
value and the block output. -/
structure KernelSem (V : Type) where
  normF : V → V → V → V
  maskedAttnF : V → V → V → Nat → V × V × V
  crossAttnF : V → V → V → V → V → Nat → Nat → V × V × V
  ffnF : V → Nat → Nat → Nat → ActivationType → V × V

/-- Pointwise state update of a tensor store. -/
def upd {V : Type} (s : Tensor → V) (t : Tensor) (v : V) : Tensor → V :=
  fun u => if u = t then v else s u

/-- Denotation of one kernel call on a tensor store.  All reads use the
store as it was on entry to the call; decoder_norm2 follows its contract
(spec section 4.4 and the comments at open_decoder.h lines 301-305 and
339-342): it overwrites its output argument with
from_tensor + output + bias and writes the normalization of that sum into
norm_output. -/
def execCall {V : Type} [Add V] (K : KernelSem V) (s : Tensor → V) : KernelCall → (Tensor → V)
  | .decoder_norm1 x g b out _ _ => upd s (.reg out) (K.normF (s x) (s g) (s b))
  | .masked_multi_head_attention x kc vc out step =>
      upd (upd (upd s kc (K.maskedAttnF (s x) (s kc) (s vc) step).2.1)
               vc (K.maskedAttnF (s x) (s kc) (s vc) step).2.2)
          (.reg out) (K.maskedAttnF (s x) (s kc) (s vc) step).1
  | .decoder_norm2 x g b bias out nout _ _ =>
      upd (upd s (.reg out) (s x + s (.reg out) + s bias))
          (.reg nout) (K.normF (s x + s (.reg out) + s bias) (s g) (s b))
  | .cross_multi_head_attention x mem kmc vmc out msl maxLen step =>
      upd (upd (upd s kmc (K.crossAttnF (s x) (s mem) (s kmc) (s vmc) (s msl) maxLen step).2.1)
               vmc (K.crossAttnF (s x) (s mem) (s kmc) (s vmc) (s msl) maxLen step).2.2)
          (.reg out) (K.crossAttnF (s x) (s mem) (s kmc) (s vmc) (s msl) maxLen step).1
  | .ffn inp inner out m innerSize n act =>
      upd (upd s (.reg inner) (K.ffnF (s inp) m innerSize n act).1)
          (.reg out) (K.ffnF (s inp) m innerSize n act).2
  | .add_bias_input out inp _ _ => upd s (.reg out) (s (.reg out) + s inp)

/-- Denotation of a call sequence: the calls executed left to right. -/
def execTrace {V : Type} [Add V] (K : KernelSem V) (s : Tensor → V) : List KernelCall → (Tensor → V)
  | [] => s
  | c :: rest => execTrace K (execCall K s c) rest

/-- Fallible execution of a call sequence: `outcome` gives each call's
device-level result (none = success, some e = a device execution error
raised by that call).  Returns the calls actually executed, in order, and
the error that aborted the sequence, if any.  This models the try block of
forward (lines 270-403): an error thrown by a sub-kernel call skips all
later calls and is rethrown unchanged to the caller. -/
def runCalls {E : Type} (outcome : KernelCall → Option E) : List KernelCall → List KernelCall × Option E
  | [] => ([], none)
  | c :: rest =>
    match outcome c with
    | some e => ([c], some e)
    | none =>
      let r := runCalls outcome rest
      (c :: r.1, r.2)

/-! Theorems. -/

/-- A parsed algorithm id passes the constructor's check exactly when it lies
in the valid range of the active precision. -/
lemma algoInvalid_eq_false_iff (op : OperationType) (a : Int) :
    algoInvalid op a = false ↔ algoOk op a := by
  cases op <;>
    simp [algoInvalid, algoOk, CUBLAS_GEMM_DEFAULT, CUBLAS_GEMM_ALGO23,
      CUBLAS_GEMM_DEFAULT_TENSOR_OP, CUBLAS_GEMM_ALGO15_TENSOR_OP] <;>
    omega

/-- C1 (counterexample): at batch size 1, hidden width 1 and pointer size 8,
getWorkspaceSize returns 85 = 13 * 1 * 1 + 9 * 8, which is neither
13 * 1 * 1 * 4 + 9 * 8 = 124 (FP32 element size 4) nor
13 * 1 * 1 * 2 + 9 * 8 = 98 (FP16 element size 2): the claimed byte formula
with the elementSize factor does not match the code for either precision. -/
theorem getWorkspaceSize_bytes_counterexample :
    getWorkspaceSize 1 1 8 = 85 ∧
    (85 : Nat) ≠ 13 * 1 * 1 * elementSize .FP32 + 9 * 8 ∧
    (85 : Nat) ≠ 13 * 1 * 1 * elementSize .FP16 + 9 * 8 := by
  decide

/-- C1 (amended): for every batch size b, hidden width h and pointer byte
size p, the workspace sizing query returns exactly 13 * b * h + 9 * p: the
tensor portion is counted in elements of the active data type (no
elementSize factor), with sizeof pointer * 9 extra units reserved for the
three pointer arrays. -/
theorem getWorkspaceSize_eq (batch_size hidden_units ptrSize : Nat) :
    getWorkspaceSize batch_size hidden_units ptrSize =
      13 * (batch_size * hidden_units) + 9 * ptrSize := by
  unfold getWorkspaceSize
  ring

/-- C5: if the tuning file is absent, or it opens but fscanf assigns fewer
than the seven expected fields, construction succeeds with all five
algorithm selectors set to the precision-specific default and the fusion
flag false. -/
theorem tuning_fallback (op : OperationType) (err : Int) (rec : GemmConfigRecord)
    (h : err < 7) :
    constructTuning op .absent =
      .ok ⟨defaultAlgo op, defaultAlgo op, defaultAlgo op, defaultAlgo op, defaultAlgo op, false⟩ ∧
    constructTuning op (.opened err rec) =
      .ok ⟨defaultAlgo op, defaultAlgo op, defaultAlgo op, defaultAlgo op, defaultAlgo op, false⟩ := by
  refine ⟨rfl, ?_⟩
  simp only [constructTuning]
  rw [if_neg (by omega)]

/-- A concrete tuning-file record: valid FP32 algorithm ids 0, split float
token 2, fused float token 5. -/
def gemmRecordW : GemmConfigRecord := ⟨0, 0, 0, 2, 0, 0, 0, 0, 0, 0, 0, 5⟩

/-- C5 (witness): the fallback theorem applied to FP32 and an opened file
whose parse assigned 0 of the 7 fields. -/
theorem tuning_fallback_witness :
    constructTuning .FP32 .absent = .ok ⟨-1, -1, -1, -1, -1, false⟩ ∧
    constructTuning .FP32 (.opened 0 gemmRecordW) = .ok ⟨-1, -1, -1, -1, -1, false⟩ :=
  tuning_fallback .FP32 0 gemmRecordW (by decide)

/-- C4: on a fully parsed tuning file (err = 7), construction terminates the
process through exit(-1) exactly when one of the five parsed ids lies
outside the valid range of the active precision, and when all five ids are
in range they are accepted and stored verbatim as cublasAlgo_[0..4]. -/
theorem algo_range_validation (op : OperationType) (rec : GemmConfigRecord) :
    (constructTuning op (.opened 7 rec) = .fatalExit (-1) ↔
      ¬(algoOk op rec.algoTok0 ∧ algoOk op rec.algoTok1 ∧ algoOk op rec.algoTok2 ∧
        algoOk op rec.algoTok3 ∧ algoOk op rec.algoTok4)) ∧
    ((algoOk op rec.algoTok0 ∧ algoOk op rec.algoTok1 ∧ algoOk op rec.algoTok2 ∧
        algoOk op rec.algoTok3 ∧ algoOk op rec.algoTok4) →
      constructTuning op (.opened 7 rec) =
        .ok ⟨rec.algoTok0, rec.algoTok1, rec.algoTok2, rec.algoTok3, rec.algoTok4,
             decide (rec.floatTok2 < rec.floatTok1 * 3)⟩) := by
  have hok : ∀ a : Int, algoInvalid op a = false ↔ algoOk op a :=
    fun a => algoInvalid_eq_false_iff op a
  simp only [constructTuning]
  rw [if_pos trivial]
  by_cases hb :
      (algoInvalid op rec.algoTok0 || algoInvalid op rec.algoTok1 || algoInvalid op rec.algoTok2
        || algoInvalid op rec.algoTok3 || algoInvalid op rec.algoTok4) = true
  · rw [if_pos hb]
    constructor
    · simp only [true_iff]
      simp only [Bool.or_eq_true] at hb
      intro hall
      rcases hall with ⟨h0, h1, h2, h3, h4⟩
      rcases hb with (((hb | hb) | hb) | hb) | hb
      · exact absurd ((hok _).mpr h0) (by simp [hb])
      · exact absurd ((hok _).mpr h1) (by simp [hb])
      · exact absurd ((hok _).mpr h2) (by simp [hb])
      · exact absurd ((hok _).mpr h3) (by simp [hb])
      · exact absurd ((hok _).mpr h4) (by simp [hb])
    · intro hall
      exfalso
      simp only [Bool.or_eq_true] at hb
      rcases hall with ⟨h0, h1, h2, h3, h4⟩
      rcases hb with (((hb | hb) | hb) | hb) | hb
      · exact absurd ((hok _).mpr h0) (by simp [hb])
      · exact absurd ((hok _).mpr h1) (by simp [hb])
      · exact absurd ((hok _).mpr h2) (by simp [hb])
      · exact absurd ((hok _).mpr h3) (by simp [hb])
      · exact absurd ((hok _).mpr h4) (by simp [hb])
  · rw [if_neg hb]
    have hall : algoOk op rec.algoTok0 ∧ algoOk op rec.algoTok1 ∧ algoOk op rec.algoTok2 ∧
        algoOk op rec.algoTok3 ∧ algoOk op rec.algoTok4 := by
      simp only [Bool.or_eq_true, not_or, Bool.not_eq_true] at hb
      exact ⟨(hok _).mp hb.1.1.1.1, (hok _).mp hb.1.1.1.2, (hok _).mp hb.1.1.2,
        (hok _).mp hb.1.2, (hok _).mp hb.2⟩
    exact ⟨by simp [hall], fun _ => rfl⟩

/-- A tuning-file record whose float after the first algorithm id is 10 and
whose final float is 1, with all five ids 0 (valid in both precisions). -/
def gemmRecordSwap : GemmConfigRecord := ⟨0, 0, 0, 10, 0, 0, 0, 0, 0, 0, 0, 1⟩

/-- C2 (counterexample): on gemmRecordSwap, the float immediately following
algoId0 (the claim's fusedTime) is 10 and the final float (the claim's
splitTime) is 1, so the claim predicts fusion disabled (10 >= 3 * 1);
but the constructor enables fusion, because fscanf binds the float after
algoId0 to split_time and the final float to fused_time, the reverse of the
claim's positional naming. -/
theorem fusion_position_counterexample :
    (constructTuning .FP32 (.opened 7 gemmRecordSwap)).fuseFlag = some true ∧
    3 * gemmRecordSwap.floatTok2 ≤ gemmRecordSwap.floatTok1 := by
  constructor
  · simp only [constructTuning]
    rw [if_pos trivial]
    rw [if_neg (by norm_num [algoInvalid, gemmRecordSwap, CUBLAS_GEMM_ALGO23,
      CUBLAS_GEMM_DEFAULT])]
    simp only [ConstructResult.fuseFlag, gemmRecordSwap, Option.some.injEq,
      decide_eq_true_eq]
    norm_num
  · norm_num [gemmRecordSwap]

/-- C2 (amended): whenever a fully parsed tuning file (err = 7) leads to a
normally completed construction, fusion is enabled iff the final float token
(bound to fused_time) is strictly less than 3 times the float token
immediately following the first algorithm id (bound to split_time); at or
above that bound, equality included, fusion is disabled. -/
theorem fusion_decision (op : OperationType) (rec : GemmConfigRecord) (p : TuningProfile)
    (h : constructTuning op (.opened 7 rec) = .ok p) :
    (p.is_fuse_QKV = true ↔ rec.floatTok2 < rec.floatTok1 * 3) ∧
    (rec.floatTok1 * 3 ≤ rec.floatTok2 → p.is_fuse_QKV = false) := by
  simp only [constructTuning] at h
  rw [if_pos trivial] at h
  by_cases hb :
      (algoInvalid op rec.algoTok0 || algoInvalid op rec.algoTok1 || algoInvalid op rec.algoTok2
        || algoInvalid op rec.algoTok3 || algoInvalid op rec.algoTok4) = true
  · rw [if_pos hb] at h
    exact absurd h (by simp)
  · rw [if_neg hb] at h
    have hp : p = ⟨rec.algoTok0, rec.algoTok1, rec.algoTok2, rec.algoTok3, rec.algoTok4,
        decide (rec.floatTok2 < rec.floatTok1 * 3)⟩ := by
      cases h
      rfl
    subst hp
    constructor
    · simp
    · intro hle
      simp [decide_eq_false_iff_not, not_lt]
      linarith

/-- C2 (witness): the amended fusion rule applied to gemmRecordW, where the
final float 5 is below 3 * 2 = 6 and fusion is indeed enabled. -/
theorem fusion_decision_witness :
    ((⟨0, 0, 0, 0, 0, true⟩ : TuningProfile).is_fuse_QKV = true ↔
      gemmRecordW.floatTok2 < gemmRecordW.floatTok1 * 3) ∧
    (gemmRecordW.floatTok1 * 3 ≤ gemmRecordW.floatTok2 →
      (⟨0, 0, 0, 0, 0, true⟩ : TuningProfile).is_fuse_QKV = false) :=
  fusion_decision .FP32 gemmRecordW ⟨0, 0, 0, 0, 0, true⟩ (by
    simp only [constructTuning]
    rw [if_pos trivial]
    rw [if_neg (by norm_num [algoInvalid, gemmRecordW, CUBLAS_GEMM_ALGO23,
      CUBLAS_GEMM_DEFAULT])]
    simp only [gemmRecordW, ConstructResult.ok.injEq, TuningProfile.mk.injEq,
      decide_eq_true_eq]
    norm_num)

/-- Layout facts over a generic buf_size: the ten regions in initialize's
fixed order, their sizes, contiguity (each begins where the previous ends,
the first at offset 0), pairwise disjointness, and the three pointer arrays
placed immediately after the last region, three pointer slots apart. -/
lemma decoderRegions_spec (b elemSize ptrSize : Nat) :
    (decoderRegions b).map Prod.fst =
      [Region.normFromTensor, .queryB, .keyB, .valueB, .contextB, .maskedOutput,
       .normMaskedOutput, .crossOutput, .normCrossOutput, .ffnInner] ∧
    (decoderRegions b).map (fun r => r.2.2) = [b, b, b, b, b, b, b, b, b, 4 * b] ∧
    ((decoderRegions b).head?.map fun r => r.2.1) = some 0 ∧
    List.Chain' (fun r s => r.2.1 + r.2.2 = s.2.1) (decoderRegions b) ∧
    List.Pairwise (fun r s => r.2.1 + r.2.2 ≤ s.2.1) (decoderRegions b) ∧
    ((decoderRegions b).getLast?.map fun r => (r.2.1 + r.2.2) * elemSize) =
      some (qkv_kernel_byte b elemSize) ∧
    qkv_input_byte b elemSize ptrSize = qkv_kernel_byte b elemSize + 3 * ptrSize ∧
    qkv_buf_byte b elemSize ptrSize = qkv_input_byte b elemSize ptrSize + 3 * ptrSize := by
  have hchain : List.Chain' (fun r s : Region × Nat × Nat => r.2.1 + r.2.2 = s.2.1)
      (decoderRegions b) := by
    simp only [decoderRegions, List.chain'_cons, List.chain'_singleton, and_true]
    omega
  refine ⟨rfl, rfl, rfl, hchain, ?_, rfl, rfl, rfl⟩
  haveI : IsTrans (Region × Nat × Nat) (fun r s => r.2.1 + r.2.2 ≤ s.2.1) :=
    ⟨fun a b c hab hbc => by omega⟩
  exact List.chain'_iff_pairwise.mp (hchain.imp fun _ _ h => le_of_eq h)

/-- C3 (counterexample): the region list bound by initialize has ten
entries, not nine as the claim counts them (its own enumeration lists ten
names, and 9 * b * h + 4 * b * h fills the 13 * b * h tensor area only with
ten regions). -/
theorem workspace_region_count_counterexample :
    (decoderRegions (1 * 1)).length = 10 ∧ (10 : Nat) ≠ 9 := by
  decide

/-- C3 (amended): for every batch size and hidden width, binding a workspace
buffer yields ten regions occupying disjoint, contiguous sub-ranges of the
buffer in the fixed order normalized-input, query, key, value, context,
masked-attention-output, normalized-masked-output, cross-attention-output,
normalized-cross-output, feed-forward-inner, each of size
batch_size * hidden_units elements except feed-forward-inner with
4 * batch_size * hidden_units, followed immediately by the three 3-slot
pointer arrays (kernel, input, output) in that order. -/
theorem workspace_layout (batch_size hidden_units elemSize ptrSize : Nat) :
    (decoderRegions (batch_size * hidden_units)).map Prod.fst =
      [Region.normFromTensor, .queryB, .keyB, .valueB, .contextB, .maskedOutput,
       .normMaskedOutput, .crossOutput, .normCrossOutput, .ffnInner] ∧
    (decoderRegions (batch_size * hidden_units)).map (fun r => r.2.2) =
      [batch_size * hidden_units, batch_size * hidden_units, batch_size * hidden_units,
       batch_size * hidden_units, batch_size * hidden_units, batch_size * hidden_units,
       batch_size * hidden_units, batch_size * hidden_units, batch_size * hidden_units,
       4 * (batch_size * hidden_units)] ∧
    ((decoderRegions (batch_size * hidden_units)).head?.map fun r => r.2.1) = some 0 ∧
    List.Chain' (fun r s => r.2.1 + r.2.2 = s.2.1) (decoderRegions (batch_size * hidden_units)) ∧
    List.Pairwise (fun r s => r.2.1 + r.2.2 ≤ s.2.1) (decoderRegions (batch_size * hidden_units)) ∧
    ((decoderRegions (batch_size * hidden_units)).getLast?.map
        fun r => (r.2.1 + r.2.2) * elemSize) =
      some (qkv_kernel_byte (batch_size * hidden_units) elemSize) ∧
    qkv_input_byte (batch_size * hidden_units) elemSize ptrSize =
      qkv_kernel_byte (batch_size * hidden_units) elemSize + 3 * ptrSize ∧
    qkv_buf_byte (batch_size * hidden_units) elemSize ptrSize =
      qkv_input_byte (batch_size * hidden_units) elemSize ptrSize + 3 * ptrSize :=
  decoderRegions_spec (batch_size * hidden_units) elemSize ptrSize

/-- C6: in the self-only variant, forward issues exactly the five calls
layernorm, masked self-attention, norm2 with the feed-forward normalization
weights and the self-attention output bias, feed-forward with GELU, and the
residual add of the masked-output region onto the decoder output; and under
the collaborator contracts the caches are updated by the attention call, the
masked-output region ends holding input + attention output + self-attention
output bias, and the final decoder output is the feed-forward output plus
that region's contents. -/
theorem forward_self_only (m n L step : Nat) (V : Type) [Add V] (K : KernelSem V)
    (s : Tensor → V) :
    forwardTrace m n L step false =
      [ .decoder_norm1 .fromTensor (.weight .selfLayernormGamma) (.weight .selfLayernormBeta)
          .normFromTensor m n,
        .masked_multi_head_attention (.reg .normFromTensor) .keyCache .valueCache
          .maskedOutput step,
        .decoder_norm2 .fromTensor (.weight .ffnLayernormGamma) (.weight .ffnLayernormBeta)
          (.weight .selfAttentionOutputBias) .maskedOutput .normMaskedOutput m n,
        .ffn (.reg .normMaskedOutput) .ffnInner .decoderOutput m (4 * n) n .GELU,
        .add_bias_input .decoderOutput (.reg .maskedOutput) m n ] ∧
    (let s1 := execTrace K s (forwardTrace m n L step false)
     let normed := K.normF (s .fromTensor) (s (.weight .selfLayernormGamma))
       (s (.weight .selfLayernormBeta))
     let attn := K.maskedAttnF normed (s .keyCache) (s .valueCache) step
     let summed := s .fromTensor + attn.1 + s (.weight .selfAttentionOutputBias)
     let normSummed := K.normF summed (s (.weight .ffnLayernormGamma))
       (s (.weight .ffnLayernormBeta))
     s1 (.reg .normFromTensor) = normed ∧
     s1 .keyCache = attn.2.1 ∧
     s1 .valueCache = attn.2.2 ∧
     s1 (.reg .maskedOutput) = summed ∧
     s1 (.reg .normMaskedOutput) = normSummed ∧
     s1 (.reg .ffnInner) = (K.ffnF normSummed m (4 * n) n .GELU).1 ∧
     s1 (.reg .decoderOutput) = (K.ffnF normSummed m (4 * n) n .GELU).2 + summed) :=
  ⟨rfl, rfl, rfl, rfl, rfl, rfl, rfl, rfl⟩

/-- Concrete integer kernel semantics used to test the forward step's data
flow: normalization returns its input unchanged, both attentions echo their
query and leave the caches as given, and the feed-forward block is the
identity (inner scratch and output both equal to the input). -/
def semZ : KernelSem Int where
  normF := fun x _ _ => x
  maskedAttnF := fun x k v _ => (x, k, v)
  crossAttnF := fun q _ km vm _ _ _ => (q, km, vm)
  ffnF := fun x _ _ _ _ => (x, x)

/-- A concrete initial tensor store: input hidden state 1, self-attention
output bias 10, cross-attention output bias 100, everything else 0. -/
def s0 : Tensor → Int := fun t =>
  match t with
  | .fromTensor => 1
  | .weight .selfAttentionOutputBias => 10
  | .weight .crossAttentionOutputBias => 100
  | _ => 0

/-- C7 (counterexample): with concrete integer kernel semantics (layernorm
the identity on its input, attention echoing its query, feed-forward the
identity) and an input state with input hidden state 1, self-attention
output bias 10 and cross-attention output bias 100, the cross-attention
output (the cross-output region after the cross-attention call, before the
second norm2) is 12, the feed-forward output is 124, and forward's final
decoder output is 248 - not 124 + (12 + 100) = 236, the value the claim's
final step (feed-forward output plus cross-output plus cross-attention
output bias) predicts: the residual actually added is the cross-output
region's contents after the second norm2, which also include the
masked-output region's contents. -/
theorem forward_cross_residual_counterexample :
    execTrace semZ s0 ((forwardTrace 1 1 1 0 true).take 4) (.reg .crossOutput) = 12 ∧
    s0 (.weight .crossAttentionOutputBias) = 100 ∧
    execTrace semZ s0 ((forwardTrace 1 1 1 0 true).take 6) (.reg .decoderOutput) = 124 ∧
    execTrace semZ s0 (forwardTrace 1 1 1 0 true) (.reg .decoderOutput) = 248 ∧
    (248 : Int) ≠ 124 + (12 + 100) := by
  refine ⟨rfl, rfl, rfl, rfl, by decide⟩

/-- C7 (amended): in the self+cross variant, forward issues exactly
layernorm, masked self-attention, norm2 with the cross-attention
normalization weights and the self-attention output bias, cross-attention
with query from the normalized-masked-output region over the encoder memory
caches, a second norm2 of the masked-output and the cross-output plus
cross-attention output bias with the feed-forward normalization weights,
feed-forward with RELU, and a final residual add of the cross-output
region; under the collaborator contracts the cross-output region then holds
masked-output contents + cross-attention output + cross-attention output
bias, and that value (not merely cross-output + bias) is the residual added
onto the feed-forward output to give the final decoder output. -/
theorem forward_cross (m n L step : Nat) (V : Type) [Add V] (K : KernelSem V)
    (s : Tensor → V) :
    forwardTrace m n L step true =
      [ .decoder_norm1 .fromTensor (.weight .selfLayernormGamma) (.weight .selfLayernormBeta)
          .normFromTensor m n,
        .masked_multi_head_attention (.reg .normFromTensor) .keyCache .valueCache
          .maskedOutput step,
        .decoder_norm2 .fromTensor (.weight .crossLayernormGamma) (.weight .crossLayernormBeta)
          (.weight .selfAttentionOutputBias) .maskedOutput .normMaskedOutput m n,
        .cross_multi_head_attention (.reg .normMaskedOutput) .memoryTensor .keyMemCache
          .valueMemCache .crossOutput .memorySequenceLength L step,
        .decoder_norm2 (.reg .maskedOutput) (.weight .ffnLayernormGamma)
          (.weight .ffnLayernormBeta) (.weight .crossAttentionOutputBias)
          .crossOutput .normCrossOutput m n,
        .ffn (.reg .normCrossOutput) .ffnInner .decoderOutput m (4 * n) n .RELU,
        .add_bias_input .decoderOutput (.reg .crossOutput) m n ] ∧
    (let s1 := execTrace K s (forwardTrace m n L step true)
     let normed := K.normF (s .fromTensor) (s (.weight .selfLayernormGamma))
       (s (.weight .selfLayernormBeta))
     let attn := K.maskedAttnF normed (s .keyCache) (s .valueCache) step
     let summed1 := s .fromTensor + attn.1 + s (.weight .selfAttentionOutputBias)
     let normSummed1 := K.normF summed1 (s (.weight .crossLayernormGamma))
       (s (.weight .crossLayernormBeta))
     let cross := K.crossAttnF normSummed1 (s .memoryTensor) (s .keyMemCache)
       (s .valueMemCache) (s .memorySequenceLength) L step
     let summed2 := summed1 + cross.1 + s (.weight .crossAttentionOutputBias)
     let normSummed2 := K.normF summed2 (s (.weight .ffnLayernormGamma))
       (s (.weight .ffnLayernormBeta))
     s1 .keyCache = attn.2.1 ∧
     s1 .valueCache = attn.2.2 ∧
     s1 (.reg .maskedOutput) = summed1 ∧
     s1 (.reg .normMaskedOutput) = normSummed1 ∧
     s1 .keyMemCache = cross.2.1 ∧
     s1 .valueMemCache = cross.2.2 ∧
     s1 (.reg .crossOutput) = summed2 ∧
     s1 (.reg .normCrossOutput) = normSummed2 ∧
     s1 (.reg .decoderOutput) = (K.ffnF normSummed2 m (4 * n) n .RELU).2 + summed2) :=
  ⟨rfl, rfl, rfl, rfl, rfl, rfl, rfl, rfl, rfl, rfl⟩

/-- C8: binding with fusion enabled issues exactly one asynchronous
host-to-device copy on the bound stream, of nine pointers
(sizeof pointer * 9 bytes) into qkv_kernel_ at element offset
13 * batch_size * hidden_units: the three self-attention projection weight
kernels, three copies of the normalized-input region pointer, and the
query, key and value region pointers; with fusion disabled it issues
nothing; and in neither case does binding allocate device memory. -/
theorem initialize_fusion_copy (batch_size hidden_units ptrSize : Nat) :
    initializeEffects (batch_size * hidden_units) ptrSize true =
      [ .memcpyAsync (13 * (batch_size * hidden_units))
          [ .weight .selfQueryKernel, .weight .selfKeyKernel, .weight .selfValueKernel,
            .reg .normFromTensor, .reg .normFromTensor, .reg .normFromTensor,
            .reg .queryB, .reg .keyB, .reg .valueB ]
          (ptrSize * 9) .hostToDevice true ] ∧
    initializeEffects (batch_size * hidden_units) ptrSize false = [] ∧
    ∀ fuse : Bool, ((initializeEffects (batch_size * hidden_units) ptrSize fuse).all
      fun e => !e.isAllocation) = true := by
  refine ⟨rfl, rfl, fun fuse => ?_⟩
  cases fuse <;> rfl

/-- If fallibly running a call list ends in an error, the executed calls are
a prefix of the planned list, every executed call but the last succeeded,
and the returned error is exactly the one the last executed call raised. -/
lemma runCalls_spec {E : Type} (outcome : KernelCall → Option E) :
    ∀ (l executed : List KernelCall) (e : E),
      runCalls outcome l = (executed, some e) →
      executed = l.take executed.length ∧
      executed.dropLast.all (fun c => (outcome c).isNone) = true ∧
      executed.getLast?.bind outcome = some e := by
  intro l
  induction l with
  | nil =>
    intro executed e h
    simp [runCalls] at h
  | cons c rest ih =>
    intro executed e h
    cases hc : outcome c with
    | some e2 =>
      rw [runCalls, hc] at h
      injection h with h1 h2
      injection h2 with h2
      subst h1
      subst h2
      exact ⟨rfl, rfl, by simp [hc]⟩
    | none =>
      rw [runCalls, hc] at h
      rcases hr : runCalls outcome rest with ⟨r1, r2⟩
      rw [hr] at h
      injection h with h1 h2
      subst h1
      subst h2
      obtain ⟨ih1, ih2, ih3⟩ := ih r1 e hr
      have hne : r1 ≠ [] := by
        intro h0
        rw [h0] at ih3
        simp at ih3
      obtain ⟨d, t, rfl⟩ : ∃ d t, r1 = d :: t := by
        cases r1 with
        | nil => exact absurd rfl hne
        | cons d t => exact ⟨d, t, rfl⟩
      refine ⟨?_, ?_, ?_⟩
      · rw [List.length_cons, List.take_succ_cons]
        exact congrArg (List.cons c) ih1
      · rw [show (c :: d :: t).dropLast = c :: (d :: t).dropLast from rfl, List.all_cons]
        simp [hc, ih2]
      · rw [List.getLast?_cons_cons]
        exact ih3

/-- C9: if a sub-kernel call of a forward step raises a device execution
error, forward executes exactly the planned calls up to and including the
failing one (a prefix of the forward trace), every call before the failing
one succeeded exactly once, and the error forward returns is the failing
call's own error, unchanged. -/
theorem forward_error_propagation {E : Type} (m n L step : Nat) (cross : Bool)
    (outcome : KernelCall → Option E) (executed : List KernelCall) (e : E)
    (h : runCalls outcome (forwardTrace m n L step cross) = (executed, some e)) :
    executed = (forwardTrace m n L step cross).take executed.length ∧
    executed.dropLast.all (fun c => (outcome c).isNone) = true ∧
    executed.getLast?.bind outcome = some e :=
  runCalls_spec outcome _ executed e h

/-- A device-error oracle under which the masked self-attention kernel fails
with error code 42 and every other kernel succeeds. -/
def outcomeW : KernelCall → Option Nat := fun c =>
  match c with
  | .masked_multi_head_attention _ _ _ _ _ => some 42
  | _ => none

/-- The calls a self-only forward step executes under outcomeW: the
layernorm, then the failing masked self-attention. -/
def executedW : List KernelCall :=
  [ .decoder_norm1 .fromTensor (.weight .selfLayernormGamma) (.weight .selfLayernormBeta)
      .normFromTensor 1 1,
    .masked_multi_head_attention (.reg .normFromTensor) .keyCache .valueCache .maskedOutput 0 ]

/-- C9 (witness): the error-propagation theorem applied to the self-only
trace at batch 1, hidden width 1, step 0 under outcomeW. -/
theorem forward_error_propagation_witness :
    executedW = (forwardTrace 1 1 1 0 false).take executedW.length ∧
    executedW.dropLast.all (fun c => (outcomeW c).isNone) = true ∧
    executedW.getLast?.bind outcomeW = some 42 :=
  forward_error_propagation 1 1 1 0 false outcomeW executedW 42 (by rfl)

/-- C10: the self-only forward trace passes none of the encoder-side inputs
(encoder memory, memory key/value caches, per-sequence memory lengths) and
neither the cross-attention-output nor the normalized-cross-output region to
any kernel call, so none of them is read or written; and under the
collaborator contracts the final state leaves all six unchanged. -/
theorem forward_self_only_frame (m n L step : Nat) (V : Type) [Add V] (K : KernelSem V)
    (s : Tensor → V) :
    (∀ c ∈ forwardTrace m n L step false,
      Tensor.memoryTensor ∉ c.operands ∧ Tensor.keyMemCache ∉ c.operands ∧
      Tensor.valueMemCache ∉ c.operands ∧ Tensor.memorySequenceLength ∉ c.operands ∧
      Tensor.reg .crossOutput ∉ c.operands ∧ Tensor.reg .normCrossOutput ∉ c.operands) ∧
    (let s1 := execTrace K s (forwardTrace m n L step false)
     s1 .memoryTensor = s .memoryTensor ∧
     s1 .keyMemCache = s .keyMemCache ∧
     s1 .valueMemCache = s .valueMemCache ∧
     s1 .memorySequenceLength = s .memorySequenceLength ∧
     s1 (.reg .crossOutput) = s (.reg .crossOutput) ∧
     s1 (.reg .normCrossOutput) = s (.reg .normCrossOutput)) := by
  constructor
  · intro c hc
    simp only [forwardTrace, Bool.false_eq_true, if_false, List.cons_append, List.nil_append,
      List.mem_cons, List.not_mem_nil, or_false] at hc
    rcases hc with rfl | rfl | rfl | rfl | rfl <;>
      simp [KernelCall.operands]
  · exact ⟨rfl, rfl, rfl, rfl, rfl, rfl⟩

end fastertransformer
